import Mathlib

/-!
Shallow embedding of `src/rust/src/discovery/handler.rs` (localsend_rs peer
discovery): the node registry, the announce protocol, and one iteration of the
multicast listen loop, together with proofs checking the specification's claims.

External effects (UDP receive/send, the HTTP registration call, timed sleeps)
are modelled as explicit inputs per iteration and as an emitted event trace.
-/

set_option autoImplicit false

namespace LocalSend

/-- Modelled from the spec: the wire identity record (`NodeAnnounce` lives in
`discovery/model.rs`, which is not under `src/`).  Per the spec it is the
wire-serializable projection of a peer record; the network address is never
trusted from the payload, so it carries fingerprint, port and protocol. -/
structure NodeAnnounce where
  fingerprint : String
  port : Nat
  protocol : String
deriving DecidableEq

/-- Modelled from the spec: a peer record (`Node` in `discovery/model.rs`, not
under `src/`): unique fingerprint, network address (IP string), port, and
protocol scheme. -/
structure Node where
  fingerprint : String
  address : String
  port : Nat
  protocol : String
deriving DecidableEq

/-- Modelled from the spec: `Node::from_announce(announce, ip)` builds a peer
record from the wire message plus the observed source address. -/
def Node.from_announce (a : NodeAnnounce) (ip : String) : Node :=
  { fingerprint := a.fingerprint, address := ip, port := a.port, protocol := a.protocol }

/-- Modelled from the spec: `Node::to_announce` projects a peer record to its
wire message (total and lossless for the fields it carries). -/
def Node.to_announce (n : Node) : NodeAnnounce :=
  { fingerprint := n.fingerprint, port := n.port, protocol := n.protocol }

/-- A resolved socket address: IP string and port (`std::net::SocketAddr`). -/
abbrev SocketAddr := String × Nat

/-- The registry mapping, fingerprint to node (`HashMap<String, Node>` in the
source), embedded as an association list with unique keys maintained by
`RMap.insert`. -/
abbrev RMap := List (String × Node)

/-- Key removal on the mapping (`HashMap::remove`). -/
def RMap.erase (m : RMap) (k : String) : RMap :=
  m.filter (fun p => p.1 != k)

/-- Upsert by key (`HashMap::insert`: the latest write replaces the prior value). -/
def RMap.insert (m : RMap) (k : String) (v : Node) : RMap :=
  (k, v) :: RMap.erase m k

/-- Key membership (`HashMap::contains_key`). -/
def RMap.containsKey (m : RMap) (k : String) : Bool :=
  m.any (fun p => p.1 == k)

/-- Point lookup (`HashMap::get`). -/
def RMap.get (m : RMap) (k : String) : Option Node :=
  (m.find? (fun p => p.1 == k)).map (fun p => p.2)

/-- The process-wide state of `handler.rs`: the lazy-static cells
`MULTICAST_ADDR`, `CURRENT_NODE`, `ANNOUCE_SOCKET`, `ANNOUCE_SEND_SOCKET`
(socket handles modelled by their presence), `NODE_MAP`, and the snapshots
published on `NODE_CHANNEL` (most recent first). -/
structure Globals where
  multicast_addr : Option SocketAddr
  current_node : Option Node
  annouce_socket : Bool
  annouce_send_socket : Bool
  node_map : RMap
  published : List RMap
deriving DecidableEq

/-- Panic message of the identity precondition checks in `serve` and `announce`. -/
def msgNoIdentity : String := "current node not initialized"

/-- Panic message of `Option::unwrap` on an empty cell. -/
def msgUnwrapNone : String := "unwrap on None"

/-- Panic message of the `expect` on a failed `send_to` in `announce`. -/
def msgSendFail : String := "failed to send message"

/-- Panic message when the received payload fails to decode (the
`serde_json::from_str(..).unwrap()` in the listen loop). -/
def msgDecodeFail : String := "failed to decode announce message"

/-- Panic message of the `expect`s in `init_socket` (bind / multicast join). -/
def msgBindFail : String := "failed to bind to address"

/-- Observable network-side effects of one operation: a multicast datagram
send, a one-time-unit sleep, or the unicast HTTP registration call (URL plus
the JSON body, which is the local identity announce). -/
inductive NetEvent where
  | send (msg : NodeAnnounce) (target : SocketAddr)
  | sleep
  | registerCall (url : String) (payload : NodeAnnounce)
deriving DecidableEq

/-- The URL built by `register`:
`{protocol}://{address}:{port}/api/localsend/v2/register`. -/
def registerUrl (target : Node) : String :=
  target.protocol ++ "://" ++ target.address ++ ":" ++ toString target.port
    ++ "/api/localsend/v2/register"

/-- Is this event a datagram send? -/
def NetEvent.isSend : NetEvent → Bool
  | .send _ _ => true
  | _ => false

/-- Number of datagram sends in a trace. -/
def countSends (evs : List NetEvent) : Nat :=
  (evs.filter NetEvent.isSend).length

/-- Result of `stop`: take the receive socket out of its cell (line 24-26). -/
def stop (g : Globals) : Globals :=
  { g with annouce_socket := false }

/-- `add_node` (lines 28-32): insert by fingerprint, then publish the new
snapshot on the watch channel. -/
def add_node (g : Globals) (node : Node) : Globals :=
  let m := RMap.insert g.node_map node.fingerprint node
  { g with node_map := m, published := m :: g.published }

/-- `clear_nodes` (lines 34-38): clear the map, then publish the (empty)
snapshot. -/
def clear_nodes (g : Globals) : Globals :=
  { g with node_map := [], published := [] :: g.published }

/-- `remove_node` (lines 40-44): remove the key (a no-op when absent), then
publish the resulting snapshot. -/
def remove_node (g : Globals) (fingerprint : String) : Globals :=
  let m := RMap.erase g.node_map fingerprint
  { g with node_map := m, published := m :: g.published }

/-- `get_node` (lines 46-49): point lookup, no side effect. -/
def get_node (g : Globals) (fingerprint : String) : Option Node :=
  RMap.get g.node_map fingerprint

/-- `get_nodes` (lines 51-54): full snapshot, no side effect. -/
def get_nodes (g : Globals) : RMap :=
  g.node_map

/-- `set_current_node` (lines 206-209): replace the local identity. -/
def set_current_node (g : Globals) (node : Node) : Globals :=
  { g with current_node := some node }

/-- Outcome of `announce`: the emitted event trace, or a panic. `announce`
never mutates the globals. -/
inductive AnnounceResult where
  | ok (events : List NetEvent)
  | panicked (msg : String)
deriving DecidableEq

/-- The `for i in 0..repeat` loop of `announce` (lines 192-203): each
iteration sends the serialized identity to the target and then sleeps one
time unit (also after the last send). -/
def announceLoop (msg : NodeAnnounce) (target : SocketAddr) : Nat → List NetEvent
  | 0 => []
  | n + 1 => NetEvent.send msg target :: NetEvent.sleep :: announceLoop msg target n

/-- `announce` (lines 175-204): panics when the identity is unset; unwraps the
multicast target (panic when unresolved); then the send loop, which unwraps
the send socket and panics via `expect` when a send fails. `sendOk` is the
external outcome of the UDP sends. -/
def announce (g : Globals) (rep : Nat) (sendOk : Bool) : AnnounceResult :=
  match g.current_node with
  | none => .panicked msgNoIdentity
  | some n =>
    match g.multicast_addr with
    | none => .panicked msgUnwrapNone
    | some target =>
      if rep = 0 then .ok []
      else if g.annouce_send_socket then
        if sendOk then .ok (announceLoop n.to_announce target rep)
        else .panicked msgSendFail
      else .panicked msgUnwrapNone

/-- `discover` (lines 170-173): clear the registry, then `announce(5)`. -/
def discover (g : Globals) (sendOk : Bool) : Globals × AnnounceResult :=
  let g1 := clear_nodes g
  (g1, announce g1 5 sendOk)

/-- Outcome of the startup phase of `serve` (lines 60-82, before the loop):
either the globals after initialization plus the captured local fingerprint,
or a panic. -/
inductive ServeInit where
  | ok (g : Globals) (captured : String)
  | panicked (msg : String)
deriving DecidableEq

/-- Startup phase of `serve` (lines 60-82): clear `NODE_MAP` directly (no
publish), run `init_socket` (`bindOk` is the external bind/join outcome; on
success both sockets are installed), panic if the identity is unset, resolve
the multicast target, and capture the local fingerprint once. -/
def serveInit (g : Globals) (bindOk : Bool) (maddr : SocketAddr) : ServeInit :=
  let g1 : Globals := { g with node_map := [] }
  if bindOk then
    let g2 : Globals := { g1 with annouce_socket := true, annouce_send_socket := true }
    match g2.current_node with
    | none => .panicked msgNoIdentity
    | some n => .ok { g2 with multicast_addr := some maddr } n.fingerprint
  else .panicked msgBindFail

/-- A received payload: a decodable announce message, or bytes that fail JSON
decoding. -/
inductive Payload where
  | ok (a : NodeAnnounce)
  | malformed
deriving DecidableEq

/-- External inputs consumed by one iteration of the listen loop: the receive
outcome (`none` is a receive error; otherwise payload and source IP), the
outcome of the HTTP registration call, and the outcome of the UDP send inside
the reactive `announce(1)`. -/
structure LoopInput where
  recv : Option (Payload × String)
  registerOk : Bool
  sendOk : Bool
deriving DecidableEq

/-- Outcome of one iteration of the listen loop: clean exit (`break` on a
receive error), continue with the next iteration, or a panic. Each outcome
carries the globals at that point. -/
inductive StepResult where
  | stopped (g : Globals)
  | next (g : Globals) (events : List NetEvent)
  | panicked (msg : String) (g : Globals)
deriving DecidableEq

/-- Globals carried by a step outcome. -/
def StepResult.globals : StepResult → Globals
  | .stopped g => g
  | .next g _ => g
  | .panicked _ g => g

/-- Events emitted by a step outcome (none for a clean exit or a panic). -/
def StepResult.events : StepResult → List NetEvent
  | .next _ evs => evs
  | _ => []

/-- One iteration of the listen loop of `serve` (lines 86-121): unwrap the
receive socket cell (panic when `stop` emptied it); `break` on a receive
error; decode the payload (panic when malformed); build the node from the
announce plus the observed source IP; discard when its fingerprint equals the
fingerprint captured at startup; otherwise issue the unicast `register` call
(which reads the current identity, panicking when unset), and only then test
membership: when the fingerprint is already present the iteration ends, else
the node is added only if registration succeeded, and `announce(1)` runs
unconditionally. -/
def serveStep (captured : String) (g : Globals) (inp : LoopInput) : StepResult :=
  if g.annouce_socket then
    match inp.recv with
    | none => .stopped g
    | some (payload, srcIp) =>
      match payload with
      | .malformed => .panicked msgDecodeFail g
      | .ok a =>
        let node := Node.from_announce a srcIp
        if node.fingerprint = captured then
          .next g []
        else
          match g.current_node with
          | none => .panicked msgUnwrapNone g
          | some c =>
            let callEv := NetEvent.registerCall (registerUrl node) c.to_announce
            if RMap.containsKey g.node_map node.fingerprint then
              .next g [callEv]
            else
              let g1 := if inp.registerOk then add_node g node else g
              match announce g1 1 inp.sendOk with
              | .ok evs => .next g1 (callEv :: evs)
              | .panicked msg => .panicked msg g1
  else
    .panicked msgUnwrapNone g

/-- One registry operation, as in the model-equivalence property of the spec. -/
inductive RegOp where
  | add (node : Node)
  | remove (fingerprint : String)
  | clear
deriving DecidableEq

/-- Apply one registry operation through the source operations. -/
def applyRegOp (g : Globals) : RegOp → Globals
  | .add node => add_node g node
  | .remove fp => remove_node g fp
  | .clear => clear_nodes g

/-- Modelled from the spec: the plain in-memory map the registry is compared
against — the same sequence interpreted as insert-by-fingerprint, delete and
clear on a bare mapping, with no channel and no publication. -/
def specApplyOp (m : RMap) : RegOp → RMap
  | .add node => RMap.insert m node.fingerprint node
  | .remove fp => RMap.erase m fp
  | .clear => []

/-- Concrete local fingerprint used by witnesses. -/
def meFp : String := "ME"

/-- Concrete local identity used by witnesses. -/
def meNode : Node :=
  { fingerprint := meFp, address := "10.0.0.1", port := 53317, protocol := "http" }

/-- Concrete incoming announce used by witnesses. -/
def peerAnnounce : NodeAnnounce :=
  { fingerprint := "A1", port := 53317, protocol := "http" }

/-- Observed source IP of the concrete incoming announce. -/
def peerIp : String := "10.0.0.2"

/-- The peer record built from the concrete announce and source IP. -/
def peerNode : Node := Node.from_announce peerAnnounce peerIp

/-- Concrete resolved multicast target used by witnesses. -/
def mcast : SocketAddr := ("224.0.0.167", 53317)

/-- Concrete globals with identity set, sockets installed, multicast resolved
and an empty registry. -/
def baseG : Globals :=
  { multicast_addr := some mcast, current_node := some meNode,
    annouce_socket := true, annouce_send_socket := true,
    node_map := [], published := [] }

/-- Concrete globals whose registry already contains the concrete peer. -/
def dupG : Globals :=
  { baseG with node_map := RMap.insert [] peerAnnounce.fingerprint peerNode }

/-- Concrete operation sequence used by the registry refinement witness. -/
def sampleOps : List RegOp :=
  [RegOp.add peerNode, RegOp.add meNode, RegOp.remove peerNode.fingerprint,
   RegOp.clear, RegOp.add peerNode]

/-- A fingerprint absent from every concrete registry used by witnesses. -/
def absentFp : String := "ZZ"

end LocalSend

namespace LocalSend

theorem announceLoop_eq_flatten (msg : NodeAnnounce) (t : SocketAddr) (n : Nat) :
    announceLoop msg t n = (List.replicate n [NetEvent.send msg t, NetEvent.sleep]).flatten := by
  induction n with
  | zero => rfl
  | succ k ih => simp [announceLoop, List.replicate_succ, ih]

theorem countSends_announceLoop (msg : NodeAnnounce) (t : SocketAddr) (n : Nat) :
    countSends (announceLoop msg t n) = n := by
  induction n with
  | zero => rfl
  | succ k ih =>
    rw [announceLoop]
    simp [countSends, List.filter_cons, NetEvent.isSend] at ih ⊢
    omega

theorem mem_announceLoop (msg : NodeAnnounce) (t : SocketAddr) (n : Nat) (e : NetEvent)
    (h : e ∈ announceLoop msg t n) : e = NetEvent.send msg t ∨ e = NetEvent.sleep := by
  induction n with
  | zero => simp [announceLoop] at h
  | succ k ih =>
    simp only [announceLoop, List.mem_cons] at h
    rcases h with h | h | h
    · exact Or.inl h
    · exact Or.inr h
    · exact ih h

theorem rmap_erase_absent (m : RMap) (k : String) (h : RMap.containsKey m k = false) :
    RMap.erase m k = m := by
  rw [RMap.erase, List.filter_eq_self]
  intro p hp
  simp only [RMap.containsKey, List.any_eq_false] at h
  simpa using h p hp

theorem rmap_erase_erase (m : RMap) (k : String) :
    RMap.erase (RMap.erase m k) k = RMap.erase m k := by
  simp [RMap.erase, List.filter_filter]

theorem applyRegOp_node_map (g : Globals) (op : RegOp) :
    (applyRegOp g op).node_map = specApplyOp g.node_map op := by
  cases op <;> rfl

theorem foldl_applyRegOp_node_map (ops : List RegOp) : ∀ g : Globals,
    (List.foldl applyRegOp g ops).node_map = List.foldl specApplyOp g.node_map ops := by
  induction ops with
  | nil => intro g; rfl
  | cons op t ih =>
    intro g
    rw [List.foldl_cons, List.foldl_cons, ih, applyRegOp_node_map]

theorem serveStep_globals_no_register (captured : String) (g : Globals)
    (r : Option (Payload × String)) (so : Bool) :
    (serveStep captured g { recv := r, registerOk := false, sendOk := so }).globals = g := by
  unfold serveStep
  dsimp only
  repeat' split
  all_goals simp_all [StepResult.globals]

/-- C1 counterexample: a duplicate announce (fingerprint already registered,
not self) is not ignored — the step issues a registration callback event. -/
theorem c1_counterexample :
    serveStep meFp dupG { recv := some (Payload.ok peerAnnounce, peerIp), registerOk := true, sendOk := true }
        ≠ StepResult.next dupG [] ∧
    serveStep meFp dupG { recv := some (Payload.ok peerAnnounce, peerIp), registerOk := true, sendOk := true }
        = StepResult.next dupG [NetEvent.registerCall (registerUrl peerNode) meNode.to_announce] := by
  exact ⟨by decide, by decide⟩

/-- C1 (amended): for a datagram whose fingerprint differs from the captured
local fingerprint but is already present in the registry, no registry mutation
occurs and no re-announce is sent, but the unicast registration call is still
issued, because `register` runs before the duplicate check. -/
theorem c1_duplicate_no_mutation_but_register_call (g : Globals) (c : Node) (a : NodeAnnounce)
    (ip captured : String) (ro so : Bool)
    (hself : a.fingerprint ≠ captured)
    (hdup : RMap.containsKey g.node_map a.fingerprint = true) :
    serveStep captured { g with annouce_socket := true, current_node := some c }
        { recv := some (Payload.ok a, ip), registerOk := ro, sendOk := so }
      = StepResult.next { g with annouce_socket := true, current_node := some c }
          [NetEvent.registerCall (registerUrl (Node.from_announce a ip)) c.to_announce] := by
  simp [serveStep, Node.from_announce, hself, hdup]

/-- C1 witness: the amended theorem applied at a concrete duplicate datagram. -/
theorem c1_witness :
    peerAnnounce.fingerprint ≠ meFp ∧
    RMap.containsKey dupG.node_map peerAnnounce.fingerprint = true ∧
    serveStep meFp { dupG with annouce_socket := true, current_node := some meNode }
        { recv := some (Payload.ok peerAnnounce, peerIp), registerOk := true, sendOk := true }
      = StepResult.next { dupG with annouce_socket := true, current_node := some meNode }
          [NetEvent.registerCall (registerUrl (Node.from_announce peerAnnounce peerIp)) meNode.to_announce] :=
  ⟨by decide, by decide,
    c1_duplicate_no_mutation_but_register_call dupG meNode peerAnnounce peerIp meFp true true
      (by decide) (by decide)⟩

/-- C2 counterexample: for a fresh (unregistered, non-self) peer whose
registration call fails, the step still emits one announce send — the
one-shot re-broadcast is not conditional on registration success. -/
theorem c2_counterexample :
    (serveStep meFp baseG { recv := some (Payload.ok peerAnnounce, peerIp), registerOk := false, sendOk := true }).events
        = [NetEvent.registerCall (registerUrl peerNode) meNode.to_announce,
           NetEvent.send meNode.to_announce mcast, NetEvent.sleep] ∧
    countSends ((serveStep meFp baseG { recv := some (Payload.ok peerAnnounce, peerIp), registerOk := false, sendOk := true }).events) ≠ 0 := by
  exact ⟨by decide, by decide⟩

/-- C2 (amended): for a fresh non-self peer, the one-shot announce(1) runs
unconditionally, whether or not the registration call succeeded; only the
registry insertion is conditional on success. -/
theorem c2_announce_runs_regardless_of_register (g : Globals) (c : Node) (t : SocketAddr)
    (a : NodeAnnounce) (ip captured : String) (ro : Bool)
    (hself : a.fingerprint ≠ captured)
    (habs : RMap.containsKey g.node_map a.fingerprint = false) :
    serveStep captured
        { g with annouce_socket := true, annouce_send_socket := true,
                 current_node := some c, multicast_addr := some t }
        { recv := some (Payload.ok a, ip), registerOk := ro, sendOk := true }
      = StepResult.next
          (if ro then
            add_node { g with annouce_socket := true, annouce_send_socket := true,
                              current_node := some c, multicast_addr := some t }
              (Node.from_announce a ip)
           else { g with annouce_socket := true, annouce_send_socket := true,
                         current_node := some c, multicast_addr := some t })
          [NetEvent.registerCall (registerUrl (Node.from_announce a ip)) c.to_announce,
           NetEvent.send c.to_announce t, NetEvent.sleep] := by
  cases ro <;>
    simp [serveStep, announce, announceLoop, add_node, Node.from_announce, hself, habs]

/-- C2 witness: the amended theorem applied at a concrete fresh peer with a
failing registration call. -/
theorem c2_witness :
    peerAnnounce.fingerprint ≠ meFp ∧
    RMap.containsKey baseG.node_map peerAnnounce.fingerprint = false ∧
    serveStep meFp
        { baseG with annouce_socket := true, annouce_send_socket := true,
                     current_node := some meNode, multicast_addr := some mcast }
        { recv := some (Payload.ok peerAnnounce, peerIp), registerOk := false, sendOk := true }
      = StepResult.next
          (if false then
            add_node { baseG with annouce_socket := true, annouce_send_socket := true,
                                  current_node := some meNode, multicast_addr := some mcast }
              (Node.from_announce peerAnnounce peerIp)
           else { baseG with annouce_socket := true, annouce_send_socket := true,
                             current_node := some meNode, multicast_addr := some mcast })
          [NetEvent.registerCall (registerUrl (Node.from_announce peerAnnounce peerIp)) meNode.to_announce,
           NetEvent.send meNode.to_announce mcast, NetEvent.sleep] :=
  ⟨by decide, by decide,
    c2_announce_runs_regardless_of_register baseG meNode mcast peerAnnounce peerIp meFp false
      (by decide) (by decide)⟩

/-- C3: the code panics on a malformed datagram — the listen loop terminates
instead of treating the malformed datagram as a recoverable event (the spec
marks this reference behavior as a defect, so the claim states the intent and
the code is the slip). -/
theorem c3_malformed_datagram_panics (captured ip : String) (g : Globals) (ro so : Bool) :
    serveStep captured { g with annouce_socket := true }
        { recv := some (Payload.malformed, ip), registerOk := ro, sendOk := so }
      = StepResult.panicked msgDecodeFail { g with annouce_socket := true } := by
  rfl

/-- C4: after `stop` empties the receive-socket cell, the next iteration
panics unwrapping the empty cell instead of observing a receive error and
breaking cleanly; a genuine receive error (socket still installed) does take
the clean break path, but it is not the only way the running loop terminates. -/
theorem c4_stop_makes_next_receive_panic (captured : String) (g : Globals) (inp : LoopInput)
    (ro so : Bool) :
    serveStep captured (stop g) inp = StepResult.panicked msgUnwrapNone (stop g) ∧
    serveStep captured { g with annouce_socket := true }
        { recv := none, registerOk := ro, sendOk := so }
      = StepResult.stopped { g with annouce_socket := true } := by
  exact ⟨rfl, rfl⟩

/-- C5: for a fresh (unregistered, non-self) peer whose registration call
fails, the step leaves the globals — in particular the registry — unchanged:
the peer is not added and nothing tentative is persisted. -/
theorem c5_register_failure_leaves_registry (captured ip : String) (g : Globals)
    (a : NodeAnnounce) (so : Bool)
    (hself : a.fingerprint ≠ captured)
    (habs : RMap.containsKey g.node_map a.fingerprint = false) :
    (serveStep captured g { recv := some (Payload.ok a, ip), registerOk := false, sendOk := so }).globals = g ∧
    RMap.containsKey ((serveStep captured g { recv := some (Payload.ok a, ip), registerOk := false, sendOk := so }).globals).node_map a.fingerprint = false := by
  have hg := serveStep_globals_no_register captured g (some (Payload.ok a, ip)) so
  exact ⟨hg, by rw [hg]; exact habs⟩

/-- C5 witness: the theorem applied at a concrete fresh peer with a failing
registration call. -/
theorem c5_witness :
    peerAnnounce.fingerprint ≠ meFp ∧
    RMap.containsKey baseG.node_map peerAnnounce.fingerprint = false ∧
    ((serveStep meFp baseG { recv := some (Payload.ok peerAnnounce, peerIp), registerOk := false, sendOk := true }).globals = baseG ∧
     RMap.containsKey ((serveStep meFp baseG { recv := some (Payload.ok peerAnnounce, peerIp), registerOk := false, sendOk := true }).globals).node_map peerAnnounce.fingerprint = false) :=
  ⟨by decide, by decide,
    c5_register_failure_leaves_registry meFp peerIp baseG peerAnnounce true (by decide) (by decide)⟩

/-- C6: starting from an empty registry, the snapshot after any finite
sequence of add / remove / clear operations equals the result of applying the
same sequence of insert-by-fingerprint / delete / clear to a plain in-memory
map. -/
theorem c6_registry_refines_model_map (ops : List RegOp) (g : Globals)
    (h : g.node_map = []) :
    get_nodes (List.foldl applyRegOp g ops) = List.foldl specApplyOp ([] : RMap) ops := by
  have hf := foldl_applyRegOp_node_map ops g
  rw [get_nodes, hf, h]

/-- C6 witness: the refinement theorem applied to a concrete operation
sequence starting from the empty registry. -/
theorem c6_witness :
    baseG.node_map = [] ∧
    get_nodes (List.foldl applyRegOp baseG sampleOps) = List.foldl specApplyOp ([] : RMap) sampleOps :=
  ⟨rfl, c6_registry_refines_model_map sampleOps baseG rfl⟩

/-- C7: with the identity set, the multicast target resolved (and the send
socket installed, sends succeeding), announce(N) emits exactly N datagram
sends, each carrying the serialized local identity to the resolved target,
with a one-time-unit sleep after every send including the last. -/
theorem c7_announce_sends_exactly_n (g : Globals) (n : Node) (t : SocketAddr) (N : Nat) :
    ∃ evs,
      announce { g with current_node := some n, multicast_addr := some t,
                        annouce_send_socket := true } N true = AnnounceResult.ok evs ∧
      evs = (List.replicate N [NetEvent.send n.to_announce t, NetEvent.sleep]).flatten ∧
      countSends evs = N ∧
      ∀ e ∈ evs, e = NetEvent.send n.to_announce t ∨ e = NetEvent.sleep := by
  refine ⟨announceLoop n.to_announce t N, ?_, announceLoop_eq_flatten n.to_announce t N,
    countSends_announceLoop n.to_announce t N, fun e he => mem_announceLoop n.to_announce t N e he⟩
  cases N with
  | zero => rfl
  | succ k => rfl

/-- C7 witness: the theorem applied at a concrete identity, target and burst
size. -/
theorem c7_witness :
    ∃ evs,
      announce { baseG with current_node := some meNode, multicast_addr := some mcast,
                            annouce_send_socket := true } 3 true = AnnounceResult.ok evs ∧
      evs = (List.replicate 3 [NetEvent.send meNode.to_announce mcast, NetEvent.sleep]).flatten ∧
      countSends evs = 3 ∧
      ∀ e ∈ evs, e = NetEvent.send meNode.to_announce mcast ∨ e = NetEvent.sleep :=
  c7_announce_sends_exactly_n baseG meNode mcast 3

/-- C8: with the local identity unset, both announce and the startup phase of
serve panic with the identity-precondition message; with the identity set,
neither can produce that panic. -/
theorem c8_identity_required (g : Globals) (rep : Nat) (so : Bool) (maddr : SocketAddr) (n : Node) :
    announce { g with current_node := none } rep so = AnnounceResult.panicked msgNoIdentity ∧
    serveInit { g with current_node := none } true maddr = ServeInit.panicked msgNoIdentity ∧
    announce { g with current_node := some n } rep so ≠ AnnounceResult.panicked msgNoIdentity ∧
    serveInit { g with current_node := some n } true maddr ≠ ServeInit.panicked msgNoIdentity := by
  refine ⟨rfl, rfl, ?_, ?_⟩
  · cases hm : g.multicast_addr with
    | none => simp [announce, msgUnwrapNone, msgNoIdentity, hm]
    | some t =>
      cases rep with
      | zero => simp [announce, hm]
      | succ k =>
        cases hs : g.annouce_send_socket <;> cases so <;>
          simp [announce, hm, hs, msgUnwrapNone, msgSendFail, msgNoIdentity]
  · simp [serveInit]

/-- C8 witness: the theorem applied at concrete inputs. -/
theorem c8_witness :
    announce { baseG with current_node := none } 2 true = AnnounceResult.panicked msgNoIdentity ∧
    serveInit { baseG with current_node := none } true mcast = ServeInit.panicked msgNoIdentity ∧
    announce { baseG with current_node := some meNode } 2 true ≠ AnnounceResult.panicked msgNoIdentity ∧
    serveInit { baseG with current_node := some meNode } true mcast ≠ ServeInit.panicked msgNoIdentity :=
  c8_identity_required baseG 2 true mcast meNode

/-- C9: removing an absent fingerprint leaves the mapping unchanged, still
publishes the (unchanged) current snapshot, and removing the same fingerprint
twice yields the same mapping as removing it once. -/
theorem c9_remove_absent_noop_still_publishes (g : Globals) (fp : String)
    (h : RMap.containsKey g.node_map fp = false) :
    (remove_node g fp).node_map = g.node_map ∧
    (remove_node g fp).published = g.node_map :: g.published ∧
    (remove_node (remove_node g fp) fp).node_map = (remove_node g fp).node_map := by
  have he : RMap.erase g.node_map fp = g.node_map := rmap_erase_absent g.node_map fp h
  refine ⟨he, ?_, ?_⟩
  · simp [remove_node, he]
  · simp [remove_node, rmap_erase_erase]

/-- C9 witness: the theorem applied at a concrete registry and a fingerprint
absent from it. -/
theorem c9_witness :
    RMap.containsKey dupG.node_map absentFp = false ∧
    ((remove_node dupG absentFp).node_map = dupG.node_map ∧
     (remove_node dupG absentFp).published = dupG.node_map :: dupG.published ∧
     (remove_node (remove_node dupG absentFp) absentFp).node_map = (remove_node dupG absentFp).node_map) :=
  ⟨by decide, c9_remove_absent_noop_still_publishes dupG absentFp (by decide)⟩

/-- C10: serve captures the local fingerprint once at startup (from the
identity set at that moment), and the running loop discards a datagram as
self exactly when its fingerprint equals that captured value — replacing the
identity with set_current_node while the loop runs does not change which
announcements are discarded. -/
theorem c10_self_check_uses_captured_fingerprint (g g0 : Globals) (n0 nr : Node)
    (maddr : SocketAddr) (captured ip : String) (a : NodeAnnounce) (ro so : Bool) :
    (∃ g2, serveInit { g0 with current_node := some n0 } true maddr = ServeInit.ok g2 n0.fingerprint) ∧
    (serveStep captured (set_current_node { g with annouce_socket := true } nr)
        { recv := some (Payload.ok a, ip), registerOk := ro, sendOk := so }
      = StepResult.next (set_current_node { g with annouce_socket := true } nr) []
      ↔ a.fingerprint = captured) := by
  refine ⟨⟨_, rfl⟩, ?_⟩
  by_cases hfp : a.fingerprint = captured
  · simp only [hfp, iff_true]
    simp [serveStep, set_current_node, Node.from_announce, hfp]
  · simp only [hfp, iff_false]
    intro hstep
    simp only [serveStep, set_current_node, Node.from_announce, if_true] at hstep
    rw [if_neg hfp] at hstep
    split at hstep
    · simp at hstep
    · split at hstep <;> simp at hstep

/-- C10 witness: the theorem applied at concrete states, a replaced identity
and a concrete datagram. -/
theorem c10_witness :
    (∃ g2, serveInit { baseG with current_node := some meNode } true mcast = ServeInit.ok g2 meNode.fingerprint) ∧
    (serveStep meFp (set_current_node { baseG with annouce_socket := true } peerNode)
        { recv := some (Payload.ok peerAnnounce, peerIp), registerOk := true, sendOk := true }
      = StepResult.next (set_current_node { baseG with annouce_socket := true } peerNode) []
      ↔ peerAnnounce.fingerprint = meFp) :=
  c10_self_check_uses_captured_fingerprint baseG baseG meNode peerNode mcast meFp peerIp
    peerAnnounce true true

end LocalSend
